import Mathlib

/-!
Shallow embedding of the retrieval core of a Mastra RAG application.

The embedded code consists of two tool files:
* the rag-tools module (`addDocumentTool` and the advanced `ragSearchTool`),
  which orchestrates an external chunker, embedder and LibSQL vector store;
* the rag-agent module, which contains an in-repo `SimpleVectorStore`
  (cosine similarity, ranked query) and a second, agent-local search tool.

JavaScript numbers are modelled as real numbers.  Calls to external
collaborators (the embedding service, the persistent store) are modelled by
passing their outcomes as `Except` parameters; the invocations the pipeline
makes are recorded in explicit logs so that batching and sequencing
properties can be stated.
-/

namespace MastraRag

noncomputable section

/-- Open metadata map attached to documents, chunks and search results,
modelled as a record of exactly the fields the code reads or writes. -/
structure Metadata where
  text : Option String := none
  documentId : Option String := none
  source : Option String := none
  chunkIndex : Option Nat := none
  addedAt : Option String := none
  id : Option String := none
  error : Bool := false
  deriving DecidableEq

/-- JavaScript falsiness fallback (`s || d`) for string-valued fields:
a missing value and the empty string both fall back to the default. -/
def jsOrElse (s : Option String) (d : String) : String :=
  match s with
  | none => d
  | some t => if t = "" then d else t

/-- Result row returned by a vector-store query (`{id, score, metadata}`). -/
structure VectorResult where
  id : String
  score : ℝ
  metadata : Metadata

/-- Source entry of a search response (`{id, content, score, metadata}`). -/
structure Source where
  id : String
  content : String
  score : ℝ
  metadata : Metadata

/-- Output shape of the advanced `ragSearchTool`. -/
structure SearchResponse where
  relevantContext : String
  sources : List Source
  totalFound : Nat
  searchPerformed : Bool

namespace RagTools

/-- The single synthetic fallback source built in the catch branch of
`ragSearchTool.execute` (`mockResults[0]`). -/
def fallbackSource (query errorMessage : String) : Source :=
  { id := "fallback-1"
  , content := "Based on the query \"" ++ query ++
      "\", here is fallback information. The vector search encountered an error: " ++
      errorMessage
  , score := 0.5
  , metadata := { documentId := some "fallback", source := some "error-fallback", error := true } }

/-- The degraded response returned by the catch branch of
`ragSearchTool.execute`. -/
def fallbackResponse (query errorMessage : String) : SearchResponse :=
  { relevantContext := (fallbackSource query errorMessage).content
  , sources := [fallbackSource query errorMessage]
  , totalFound := 1
  , searchPerformed := false }

/-- Body of `ragSearchTool.execute` from the rag-tools module.  The query
embedding and the store query are external calls whose outcomes are passed
in as `Except` values; the try/catch around the body maps either failure to
`fallbackResponse`.  The function is total: no error is re-raised. -/
def ragSearchExecute (query : String) (maxResults : Nat)
    (embedOutcome : Except String (List ℝ))
    (queryOutcome : Except String (List VectorResult)) : SearchResponse :=
  match embedOutcome with
  | .error e => fallbackResponse query e
  | .ok _queryEmbedding =>
    match queryOutcome with
    | .error e => fallbackResponse query e
    | .ok vectorResults =>
      let sources : List Source := vectorResults.map (fun result =>
        { id := result.id
        , content := jsOrElse result.metadata.text "No content available"
        , score := result.score
        , metadata := result.metadata })
      let relevantContext := String.intercalate "\n\n---\n\n"
        (sources.map (fun source =>
          "[Source: " ++ jsOrElse source.metadata.documentId "unknown" ++ "]\n" ++
            source.content))
      { relevantContext := relevantContext
      , sources := sources
      , totalFound := vectorResults.length
      , searchPerformed := true }

/-- Output shape of `addDocumentTool`. -/
structure AddDocumentResult where
  documentId : String
  chunksCreated : Nat
  embedded : Bool
  message : String
  deriving DecidableEq

/-- Arguments of one `vectorStore.upsert` invocation. -/
structure UpsertCall where
  indexName : String
  ids : List String
  vectors : List (List ℝ)
  metadata : List Metadata

/-- Result of `addDocumentTool.execute` together with the log of external
invocations it performed: each `embedMany` call (its `values` argument) and
each `upsert` call. -/
structure AddDocumentTrace where
  result : AddDocumentResult
  embedCalls : List (List String)
  upsertCalls : List UpsertCall

/-- The failed result built in the catch branch of `addDocumentTool.execute`. -/
def errorResult (errorMessage : String) : AddDocumentResult :=
  { documentId := "error"
  , chunksCreated := 0
  , embedded := false
  , message := "Error processing document: " ++ errorMessage }

/-- Body of `addDocumentTool.execute` from the rag-tools module.

External calls are modelled by outcome parameters: `chunkOutcome` for
`document.chunk` (the chunk texts), `createIndexOutcome` for
`vectorStore.createIndex`, `embedOutcome` for `embedMany`, and
`upsertOutcome` for `vectorStore.upsert`.  `metaId` is a caller-supplied
`metadata.id`; `now` is the `Date.now()` read at the `fromText` call and
`now2` the one at the `documentId` fallback.  The index-creation try/catch
swallows its error, so `createIndexOutcome` is never inspected.  Note that
in `MDocument.fromText(text, {...metadata, addedAt, id: 'doc-' + Date.now()})`
the trailing `id:` property overwrites any caller-supplied `metadata.id`. -/
def addDocumentExecute (metaId : Option String) (now now2 : Nat)
    (chunkOutcome : Except String (List String))
    (createIndexOutcome : Except String Unit)
    (embedOutcome : Except String (List (List ℝ)))
    (upsertOutcome : Except String Unit) : AddDocumentTrace :=
  match chunkOutcome with
  | .error e => ⟨errorResult e, [], []⟩
  | .ok chunks =>
    let fromTextId : Option String := some ("doc-" ++ toString now)
    let _callerId := metaId
    let _swallowed := createIndexOutcome
    -- `const documentId = docMetadata[0]?.id || 'doc-' + Date.now()`
    let documentId := jsOrElse fromTextId ("doc-" ++ toString now2)
    let chunkTexts := chunks
    -- chunk metadata rows; the wall-clock ISO timestamp string is not modelled
    let chunkMetadata : List Metadata := chunks.enum.map (fun p =>
      { text := some p.2, documentId := some documentId, chunkIndex := some p.1 })
    match embedOutcome with
    | .error e => ⟨errorResult e, [chunkTexts], []⟩
    | .ok embeddings =>
      let call : UpsertCall :=
        { indexName := "knowledge-base"
        , ids := (List.range chunks.length).map (fun index =>
            documentId ++ "-chunk-" ++ toString index)
        , vectors := embeddings
        , metadata := chunkMetadata }
      match upsertOutcome with
      | .error e => ⟨errorResult e, [chunkTexts], [call]⟩
      | .ok _ =>
        ⟨{ documentId := documentId
         , chunksCreated := chunks.length
         , embedded := true
         , message := "Successfully processed document into " ++ toString chunks.length ++
             " chunks and stored embeddings in vector database." }
        , [chunkTexts], [call]⟩

end RagTools

namespace SimpleVectorStore

/-- One entry of the in-memory `SimpleVectorStore.documents` array. -/
structure StoredDoc where
  id : String
  embedding : List ℝ
  metadata : Metadata

/-- The `dotProduct` accumulator of `cosineSimilarity`
(`a.reduce((sum, a_i, i) => sum + a_i * b[i], 0)`, for equal-length vectors). -/
def dotProduct (a b : List ℝ) : ℝ := (List.zipWith (fun x y => x * y) a b).sum

/-- The `magnitudeA`/`magnitudeB` bindings of `cosineSimilarity`:
`Math.sqrt(v.reduce((sum, v_i) => sum + v_i * v_i, 0))`. -/
def magnitude (v : List ℝ) : ℝ := Real.sqrt ((v.map (fun x => x * x)).sum)

/-- `SimpleVectorStore.cosineSimilarity`: `dotProduct / (magnitudeA * magnitudeB)`.
The division is unguarded: no zero-magnitude check is performed. -/
def cosineSimilarity (a b : List ℝ) : ℝ :=
  dotProduct a b / (magnitude a * magnitude b)

/-- Scoring stage of `SimpleVectorStore.query`: `this.documents.map(doc => ...)`.
Every stored document is scored, with no guard on vector magnitudes. -/
def scoreResults (docs : List StoredDoc) (queryEmbedding : List ℝ) : List VectorResult :=
  docs.map (fun doc =>
    { id := doc.id
    , score := cosineSimilarity queryEmbedding doc.embedding
    , metadata := doc.metadata })

/-- The sort comparator `(a, b) => b.score - a.score` of `query`, as the
Boolean order it induces (descending by score).  JavaScript `Array.sort`
is stable, as is `List.mergeSort`. -/
def scoreDesc (a b : VectorResult) : Bool := decide (b.score ≤ a.score)

/-- Ranking stage of `query`: `.sort((a, b) => b.score - a.score).slice(0, topK)`. -/
def rankResults (results : List VectorResult) (topK : Nat) : List VectorResult :=
  (results.mergeSort scoreDesc).take topK

/-- `SimpleVectorStore.query`: score every document, sort descending by score
(stably), truncate to `topK`, then drop scores not above `0.1`. -/
def query (docs : List StoredDoc) (queryEmbedding : List ℝ) (topK : Nat) : List VectorResult :=
  (rankResults (scoreResults docs queryEmbedding) topK).filter
    (fun result => decide ((0.1 : ℝ) < result.score))

end SimpleVectorStore

namespace RagAgent

open SimpleVectorStore

/-- Output shape of the agent-local `ragSearchTool` (rag-agent module): note
it has no `searchPerformed` or `totalFound` field. -/
structure AgentSearchResponse where
  relevantContext : String
  sources : List Source

/-- Body of the agent-local `ragSearchTool.execute` (rag-agent module).  The
store is the in-repo `SimpleVectorStore` holding `docs`; only the query
embedding is an external call, passed in as an outcome.  An empty result
sequence yields the sentinel message; the catch branch yields an error
message with zero sources (and cannot be triggered by `query`, which is
total). -/
def agentRagSearchExecute (queryText : String) (maxResults : Nat)
    (docs : List StoredDoc)
    (embedOutcome : Except String (List ℝ)) : AgentSearchResponse :=
  match embedOutcome with
  | .error e =>
    { relevantContext := "Error occurred while searching the knowledge base: " ++ e ++
        ". Please try rephrasing your question."
    , sources := [] }
  | .ok queryEmbedding =>
    let searchResults := SimpleVectorStore.query docs queryEmbedding maxResults
    if searchResults.length = 0 then
      { relevantContext := "No relevant documents found for the given query."
      , sources := [] }
    else
      let sources : List Source := searchResults.enum.map (fun p =>
        { id := jsOrElse (some p.2.id) ("result-" ++ toString p.1)
        , content := jsOrElse p.2.metadata.text "No content available"
        -- `result.score || 0`: the identity on real-valued scores
        , score := p.2.score
        , metadata := p.2.metadata })
      { relevantContext := String.intercalate "\n\n---\n\n"
          (sources.map (fun source => source.content))
      , sources := sources }

end RagAgent

namespace SpecModel

/-- Error raised by the chunker on an invalid configuration or input. -/
inductive ChunkError where
  | invalidChunkConfig
  deriving DecidableEq

/-- Rendering of a chunk error as the message seen by the caller. -/
def ChunkError.message : ChunkError → String
  | .invalidChunkConfig => "InvalidChunkConfig"

/-- Modelled from the spec: the chunker (`MDocument.chunk` of the external
rag package; only its caller is under src/).  Per the spec: `overlap < size`
is required, violations fail with `InvalidChunkConfig`; `addDocument("")`
fails with `InvalidChunkConfig` rather than silently creating an empty
chunk; if `len(text) <= size` the result is a single chunk equal to the
input; otherwise a fixed-size sliding window with the given overlap, whose
final chunk may be shorter than `size`. -/
def chunkText (text : String) (size overlap : Nat) : Except ChunkError (List String) :=
  if size ≤ overlap then .error .invalidChunkConfig
  else if text.length = 0 then .error .invalidChunkConfig
  else if text.length ≤ size then .ok [text]
  else
    let step := size - overlap
    .ok ((List.range ((text.length - overlap + step - 1) / step)).map
      (fun i => String.mk ((text.data.drop (i * step)).take size)))

/-- Similarity metric of an index. -/
inductive Metric where
  | cosine
  deriving DecidableEq

/-- Declared shape of one named index. -/
structure IndexSpec where
  name : String
  dimension : Nat
  metric : Metric
  deriving DecidableEq

/-- State of the persistent vector store: its named indexes. -/
structure StoreState where
  indexes : List IndexSpec
  deriving DecidableEq

/-- Modelled from the spec: `createIndex` of the persistent vector store
(LibSQLVector, external to src/; only its callers are under src/).  Per the
spec it is idempotent: if the index already exists the state is unchanged
and the call surfaces only the benign, recoverable `IndexAlreadyExists`
condition (which the ingestion code catches and swallows); otherwise the
index is created. -/
def createIndexStore (s : StoreState) (name : String) (dimension : Nat) (metric : Metric) :
    StoreState × Except String Unit :=
  if s.indexes.any (fun ix => ix.name = name) then
    (s, .error "IndexAlreadyExists")
  else
    ({ indexes := s.indexes ++ [{ name := name, dimension := dimension, metric := metric }] },
      .ok ())

end SpecModel

namespace RagTools

/-- `addDocumentTool.execute` with the spec-modelled chunker wired in for
`document.chunk` (the chunk error message is what the catch branch reports). -/
def addDocumentRun (text : String) (metaId : Option String) (now now2 : Nat)
    (chunkSize chunkOverlap : Nat)
    (createIndexOutcome : Except String Unit)
    (embedOutcome : Except String (List (List ℝ)))
    (upsertOutcome : Except String Unit) : AddDocumentTrace :=
  addDocumentExecute metaId now now2
    ((SpecModel.chunkText text chunkSize chunkOverlap).mapError SpecModel.ChunkError.message)
    createIndexOutcome embedOutcome upsertOutcome

end RagTools

/-- A generated document id `doc-<timestamp>` is never the empty string. -/
lemma doc_id_ne_empty (x : String) : ("doc-" ++ x) ≠ "" := by
  intro h
  have h' := congrArg String.length h
  simp [String.length_append] at h'
  exact absurd h'.1 (by decide)

/-!  Theorems settling the claims.  -/

/-- C1: any failure in the query phase of the advanced `ragSearchTool`, after
the query embedding was computed, is converted into a well-formed response
with exactly one synthetic source whose metadata carries `error: true` and
whose content embeds the failure reason, with `searchPerformed = false`;
`ragSearchExecute` is total, so the error is never re-raised. -/
theorem c1_query_failure_degrades :
    ∀ (queryText : String) (maxResults : Nat) (emb : List ℝ) (e : String),
      RagTools.ragSearchExecute queryText maxResults (.ok emb) (.error e) =
        RagTools.fallbackResponse queryText e ∧
      (RagTools.fallbackResponse queryText e).sources.length = 1 ∧
      (RagTools.fallbackResponse queryText e).sources.map (fun s => s.metadata.error) = [true] ∧
      (RagTools.fallbackResponse queryText e).sources.map Source.content =
        ["Based on the query \"" ++ queryText ++
          "\", here is fallback information. The vector search encountered an error: " ++ e] ∧
      (RagTools.fallbackResponse queryText e).searchPerformed = false := by
  intro queryText maxResults emb e
  exact ⟨rfl, rfl, rfl, rfl, rfl⟩

/-- C2 counterexample: in the advanced `ragSearchTool`, a failure-free search
with an empty result sequence returns zero sources and `searchPerformed = true`
but `relevantContext` is the empty string, not the sentinel message the claim
requires. -/
theorem c2_counterexample :
    (RagTools.ragSearchExecute "What is Mastra?" 5 (.ok [(1 : ℝ)]) (.ok [])).sources = [] ∧
    (RagTools.ragSearchExecute "What is Mastra?" 5 (.ok [(1 : ℝ)]) (.ok [])).searchPerformed
      = true ∧
    (RagTools.ragSearchExecute "What is Mastra?" 5 (.ok [(1 : ℝ)]) (.ok [])).relevantContext
      = "" ∧
    "" ≠ "no relevant documents found" := by
  refine ⟨rfl, rfl, rfl, by decide⟩

/-- C2 amended: in the advanced `ragSearchTool` a failure-free search with an
empty result sequence returns zero sources, `searchPerformed = true`,
`totalFound = 0` and `relevantContext` equal to the empty string; the sentinel
message appears only in the agent-local search tool, whose empty-index
response has zero sources and the sentinel `relevantContext`, but whose
response shape has no `searchPerformed` field. -/
theorem c2_amended_empty_results :
    ∀ (queryText : String) (maxResults : Nat) (emb : List ℝ),
      RagTools.ragSearchExecute queryText maxResults (.ok emb) (.ok []) =
        { relevantContext := "", sources := [], totalFound := 0, searchPerformed := true } ∧
      RagAgent.agentRagSearchExecute queryText maxResults [] (.ok emb) =
        { relevantContext := "No relevant documents found for the given query."
        , sources := [] } := by
  intro queryText maxResults emb
  constructor
  · rfl
  · simp [RagAgent.agentRagSearchExecute, SimpleVectorStore.query,
      SimpleVectorStore.rankResults, SimpleVectorStore.scoreResults]

/-- C3: if the embedding step of `addDocumentTool` fails, no upsert is issued
(the knowledge base is untouched by the call) and the caller receives the
explicit failed result with `embedded = false` and an error message; a
chunking failure likewise issues no upsert, so every write is preceded by a
completed embedding. -/
theorem c3_embed_failure_aborts :
    ∀ (metaId : Option String) (now now2 : Nat) (chunks : List String)
      (cio uo : Except String Unit) (e : String),
      RagTools.addDocumentExecute metaId now now2 (.ok chunks) cio (.error e) uo =
        ⟨RagTools.errorResult e, [chunks], []⟩ ∧
      (RagTools.errorResult e).embedded = false ∧
      (RagTools.errorResult e).message = "Error processing document: " ++ e ∧
      ∀ (ce : String),
        (RagTools.addDocumentExecute metaId now now2 (.error ce) cio (.error e) uo).upsertCalls
          = [] := by
  intro metaId now now2 chunks cio uo e
  exact ⟨rfl, rfl, rfl, fun ce => rfl⟩

/-- C6 counterexample: a successful `addDocumentTool` call that supplies
`metadata.id = "my-id"` still reports the generated id `doc-111` (the `id:`
property written after the metadata spread overwrites the caller's id), and
two distinct successful calls that share the same `Date.now()` millisecond
report the same generated `documentId`. -/
theorem c6_counterexample :
    (RagTools.addDocumentRun "hello" (some "my-id") 111 222 512 50
        (.ok ()) (.ok [[(1 : ℝ)]]) (.ok ())).result.embedded = true ∧
    (RagTools.addDocumentRun "hello" (some "my-id") 111 222 512 50
        (.ok ()) (.ok [[(1 : ℝ)]]) (.ok ())).result.documentId = "doc-111" ∧
    "doc-111" ≠ "my-id" ∧
    (RagTools.addDocumentRun "aaa" none 7 7 512 50
        (.ok ()) (.ok [[(1 : ℝ)]]) (.ok ())).result.documentId =
      (RagTools.addDocumentRun "bbb" none 7 7 512 50
        (.ok ()) (.ok [[(1 : ℝ)]]) (.ok ())).result.documentId := by
  refine ⟨rfl, rfl, by decide, rfl⟩

/-- C6 amended: the `documentId` reported by a successful `addDocumentTool`
call is always the generated `doc-<Date.now()>`; a caller-supplied
`metadata.id` is overwritten by the spread and never used, and any two
successful calls sharing the same `Date.now()` value report the same
generated id (the id is not collision-resistant across calls). -/
theorem c6_amended_generated_id :
    ∀ (metaId : Option String) (now now2 : Nat) (chunks : List String)
      (cio : Except String Unit) (embs : List (List ℝ)),
      (RagTools.addDocumentExecute metaId now now2 (.ok chunks) cio (.ok embs)
          (.ok ())).result.documentId = "doc-" ++ toString now ∧
      ∀ (metaId' : Option String) (chunks' : List String) (embs' : List (List ℝ)),
        (RagTools.addDocumentExecute metaId now now2 (.ok chunks) cio (.ok embs)
            (.ok ())).result.documentId =
          (RagTools.addDocumentExecute metaId' now now2 (.ok chunks') cio (.ok embs')
            (.ok ())).result.documentId := by
  intro metaId now now2 chunks cio embs
  have hne : (("doc-" ++ toString now) = "") ↔ False :=
    iff_false_intro (doc_id_ne_empty (toString now))
  constructor
  · simp [RagTools.addDocumentExecute, jsOrElse, hne]
  · intro metaId' chunks' embs'
    simp [RagTools.addDocumentExecute, jsOrElse, hne]

/-- C7: calling `addDocument` with the empty string fails with
`InvalidChunkConfig` for every chunk configuration — the spec-modelled
chunker rejects empty input instead of producing an empty chunk — and the
call issues no embedding and no upsert, returning the explicit failed
result. -/
theorem c7_empty_document_invalid :
    ∀ (chunkSize chunkOverlap : Nat) (metaId : Option String) (now now2 : Nat)
      (cio : Except String Unit) (eo : Except String (List (List ℝ)))
      (uo : Except String Unit),
      SpecModel.chunkText "" chunkSize chunkOverlap = .error .invalidChunkConfig ∧
      RagTools.addDocumentRun "" metaId now now2 chunkSize chunkOverlap cio eo uo =
        ⟨RagTools.errorResult "InvalidChunkConfig", [], []⟩ ∧
      (RagTools.errorResult "InvalidChunkConfig").embedded = false := by
  intro chunkSize chunkOverlap metaId now now2 cio eo uo
  have h : SpecModel.chunkText "" chunkSize chunkOverlap = .error .invalidChunkConfig := by
    by_cases hso : chunkSize ≤ chunkOverlap <;> simp [SpecModel.chunkText, hso]
  refine ⟨h, ?_, rfl⟩
  simp [RagTools.addDocumentRun, h, Except.mapError, RagTools.addDocumentExecute,
    SpecModel.ChunkError.message]

/-- C8: index creation is idempotent — after any `createIndex`, a repeated
call with the same name leaves the store state unchanged and surfaces only
the benign recoverable `IndexAlreadyExists` condition — and the ingestion
pipeline never surfaces a `createIndex` failure to its caller: the trace of
`addDocumentTool` is independent of the `createIndex` outcome, which the
try/catch swallows. -/
theorem c8_create_index_idempotent :
    (∀ (s : SpecModel.StoreState) (n : String) (d : Nat) (m : SpecModel.Metric),
      SpecModel.createIndexStore (SpecModel.createIndexStore s n d m).1 n d m =
        ((SpecModel.createIndexStore s n d m).1, Except.error "IndexAlreadyExists")) ∧
    (∀ (metaId : Option String) (now now2 : Nat) (co : Except String (List String))
       (o o' : Except String Unit) (eo : Except String (List (List ℝ)))
       (uo : Except String Unit),
      RagTools.addDocumentExecute metaId now now2 co o eo uo =
        RagTools.addDocumentExecute metaId now now2 co o' eo uo) := by
  constructor
  · intro s n d m
    by_cases h : s.indexes.any (fun ix => ix.name = n)
    · simp [SpecModel.createIndexStore, h]
    · simp [SpecModel.createIndexStore, h, List.any_append]
  · intro metaId now now2 co o o' eo uo
    rfl

/-- C9: on every `addDocumentTool` call that reaches embedding, the embedder
is invoked exactly once, with the full ordered list of chunk texts, and the
single upsert stores the returned vectors in order under the derived ids
`<documentId>-chunk-<i>`: the `ids` list is exactly the index-derived ids in
chunk order, parallel to the `vectors` list, which is the embedder output
unchanged. -/
theorem c9_batched_embedding_ordered_ids :
    ∀ (metaId : Option String) (now now2 : Nat) (chunks : List String)
      (cio : Except String Unit) (embs : List (List ℝ)) (uo : Except String Unit),
      (RagTools.addDocumentExecute metaId now now2 (.ok chunks) cio (.ok embs) uo).embedCalls
        = [chunks] ∧
      (RagTools.addDocumentExecute metaId now now2 (.ok chunks) cio (.ok embs)
          uo).upsertCalls.map RagTools.UpsertCall.vectors = [embs] ∧
      (RagTools.addDocumentExecute metaId now now2 (.ok chunks) cio (.ok embs)
          uo).upsertCalls.map RagTools.UpsertCall.ids =
        [(List.range chunks.length).map (fun index =>
          ("doc-" ++ toString now) ++ "-chunk-" ++ toString index)] := by
  intro metaId now now2 chunks cio embs uo
  have hne : (("doc-" ++ toString now) = "") ↔ False :=
    iff_false_intro (doc_id_ne_empty (toString now))
  refine ⟨?_, ?_, ?_⟩ <;> cases uo <;>
    simp [RagTools.addDocumentExecute, jsOrElse, hne]

/-!  Helper lemmas about the similarity arithmetic and the ranking stages.  -/

/-- The dot product of a vector with itself is its sum of squares. -/
lemma dotProduct_self (v : List ℝ) :
    SimpleVectorStore.dotProduct v v = (v.map (fun x => x * x)).sum := by
  induction v with
  | nil => rfl
  | cons a l ih =>
    simp only [SimpleVectorStore.dotProduct, List.zipWith_cons_cons, List.sum_cons,
      List.map_cons] at ih ⊢
    exact congrArg (fun t => a * a + t) ih

/-- A sum of squares is nonnegative. -/
lemma sum_squares_nonneg (v : List ℝ) : 0 ≤ (v.map (fun x => x * x)).sum :=
  List.sum_nonneg (fun x hx => by
    obtain ⟨y, -, rfl⟩ := List.mem_map.mp hx
    exact mul_self_nonneg y)

/-- A sum of squares over a vector with a nonzero component is positive. -/
lemma sum_squares_pos (v : List ℝ) (h : ∃ x ∈ v, x ≠ 0) :
    0 < (v.map (fun x => x * x)).sum := by
  obtain ⟨x, hx, hx0⟩ := h
  have hle : x * x ≤ (v.map (fun x => x * x)).sum :=
    List.single_le_sum
      (fun y hy => by
        obtain ⟨z, -, rfl⟩ := List.mem_map.mp hy
        exact mul_self_nonneg z)
      _ (List.mem_map_of_mem _ hx)
  exact lt_of_lt_of_le (mul_self_pos.mpr hx0) hle

/-- The similarity of the one-component unit vector with itself is `1`. -/
lemma cosine_one_one :
    SimpleVectorStore.cosineSimilarity [(1 : ℝ)] [(1 : ℝ)] = 1 := by
  simp [SimpleVectorStore.cosineSimilarity, SimpleVectorStore.dotProduct,
    SimpleVectorStore.magnitude, Real.sqrt_one]

/-- The descending-score comparator is transitive. -/
lemma scoreDesc_trans (a b c : VectorResult) :
    SimpleVectorStore.scoreDesc a b → SimpleVectorStore.scoreDesc b c →
      SimpleVectorStore.scoreDesc a c := by
  simp only [SimpleVectorStore.scoreDesc, decide_eq_true_eq]
  exact fun hab hbc => le_trans hbc hab

/-- The descending-score comparator is total. -/
lemma scoreDesc_total (a b : VectorResult) :
    SimpleVectorStore.scoreDesc a b || SimpleVectorStore.scoreDesc b a := by
  simp only [SimpleVectorStore.scoreDesc, Bool.or_eq_true, decide_eq_true_eq]
  exact le_total b.score a.score

/-- Stability of the ranking sort: filtering the sorted list down to any
fixed score value gives back the corresponding entries in their original
order. -/
lemma mergeSort_filter_score (L : List VectorResult) (c : ℝ) :
    (L.mergeSort SimpleVectorStore.scoreDesc).filter (fun r => decide (r.score = c)) =
      L.filter (fun r => decide (r.score = c)) := by
  have hpair : (L.filter (fun r => decide (r.score = c))).Pairwise
      (fun a b => SimpleVectorStore.scoreDesc a b) := by
    apply List.pairwise_of_forall_mem_list
    intro a ha b hb
    have ha' : a.score = c := of_decide_eq_true (List.mem_filter.mp ha).2
    have hb' : b.score = c := of_decide_eq_true (List.mem_filter.mp hb).2
    simp [SimpleVectorStore.scoreDesc, ha', hb']
  have hsub : List.Sublist (L.filter (fun r => decide (r.score = c)))
      (L.mergeSort SimpleVectorStore.scoreDesc) :=
    List.sublist_mergeSort scoreDesc_trans scoreDesc_total hpair (List.filter_sublist L)
  have hidem : (L.filter (fun r => decide (r.score = c))).filter
      (fun r => decide (r.score = c)) = L.filter (fun r => decide (r.score = c)) :=
    List.filter_eq_self.mpr (fun a ha => (List.mem_filter.mp ha).2)
  have hsubf : List.Sublist (L.filter (fun r => decide (r.score = c)))
      ((L.mergeSort SimpleVectorStore.scoreDesc).filter (fun r => decide (r.score = c))) := by
    have := hsub.filter (fun r => decide (r.score = c))
    rwa [hidem] at this
  have hperm : List.Perm
      ((L.mergeSort SimpleVectorStore.scoreDesc).filter (fun r => decide (r.score = c)))
      (L.filter (fun r => decide (r.score = c))) :=
    (List.mergeSort_perm L _).filter _
  exact (hsubf.eq_of_length hperm.length_eq.symm).symm

/-- C4: `SimpleVectorStore.query` returns at most `topK` entries, with
pairwise non-increasing scores, and it is stable: for every score value,
the returned entries with that score form a subsequence of the scored
store entries in their original insertion order. -/
theorem c4_query_topk_sorted_stable :
    ∀ (docs : List SimpleVectorStore.StoredDoc) (qe : List ℝ) (topK : Nat),
      (SimpleVectorStore.query docs qe topK).length ≤ topK ∧
      (SimpleVectorStore.query docs qe topK).Pairwise (fun a b => b.score ≤ a.score) ∧
      ∀ c : ℝ,
        List.Sublist
          ((SimpleVectorStore.query docs qe topK).filter (fun r => decide (r.score = c)))
          ((SimpleVectorStore.scoreResults docs qe).filter (fun r => decide (r.score = c))) := by
  intro docs qe topK
  refine ⟨?_, ?_, ?_⟩
  · calc (SimpleVectorStore.query docs qe topK).length
        ≤ (SimpleVectorStore.rankResults (SimpleVectorStore.scoreResults docs qe) topK).length :=
          List.length_filter_le _ _
      _ ≤ topK := by
          simp only [SimpleVectorStore.rankResults, List.length_take]
          exact min_le_left _ _
  · have hsorted := List.sorted_mergeSort scoreDesc_trans scoreDesc_total
      (SimpleVectorStore.scoreResults docs qe)
    have htake := hsorted.sublist
      (List.take_sublist topK
        ((SimpleVectorStore.scoreResults docs qe).mergeSort SimpleVectorStore.scoreDesc))
    have hfilter := htake.sublist
      (List.filter_sublist (p := fun result => decide ((0.1 : ℝ) < result.score))
        (((SimpleVectorStore.scoreResults docs qe).mergeSort
          SimpleVectorStore.scoreDesc).take topK))
    exact hfilter.imp (fun h => of_decide_eq_true h)
  · intro c
    have h5 : List.Sublist
        ((SimpleVectorStore.query docs qe topK).filter (fun r => decide (r.score = c)))
        ((SimpleVectorStore.rankResults (SimpleVectorStore.scoreResults docs qe) topK).filter
          (fun r => decide (r.score = c))) :=
      (List.filter_sublist _).filter _
    have h6 : List.Sublist
        ((SimpleVectorStore.rankResults (SimpleVectorStore.scoreResults docs qe)
          topK).filter (fun r => decide (r.score = c)))
        (((SimpleVectorStore.scoreResults docs qe).mergeSort
          SimpleVectorStore.scoreDesc).filter (fun r => decide (r.score = c))) :=
      (List.take_sublist _ _).filter _
    have h7 := (h5.trans h6)
    rwa [mergeSort_filter_score] at h7

/-- C5: `cosineSimilarity` is the quotient of the dot product by the product
of the magnitudes, and its value on any vector with a nonzero component
against itself is exactly `1`. -/
theorem c5_cosine_self_one :
    (∀ a b : List ℝ, SimpleVectorStore.cosineSimilarity a b =
      SimpleVectorStore.dotProduct a b /
        (SimpleVectorStore.magnitude a * SimpleVectorStore.magnitude b)) ∧
    ∀ v : List ℝ, (∃ x ∈ v, x ≠ 0) → SimpleVectorStore.cosineSimilarity v v = 1 := by
  constructor
  · intro a b
    rfl
  · intro v hv
    have hpos := sum_squares_pos v hv
    have hnn := sum_squares_nonneg v
    simp only [SimpleVectorStore.cosineSimilarity, SimpleVectorStore.magnitude]
    rw [dotProduct_self, Real.mul_self_sqrt hnn]
    exact div_self (ne_of_gt hpos)

/-- C5 witness: the one-component vector `[1]` is nonzero and its cosine
similarity with itself is `1`. -/
theorem c5_witness :
    (∃ x ∈ [(1 : ℝ)], x ≠ 0) ∧
      SimpleVectorStore.cosineSimilarity [(1 : ℝ)] [(1 : ℝ)] = 1 := by
  have h : ∃ x ∈ [(1 : ℝ)], x ≠ 0 := ⟨1, List.mem_singleton.mpr rfl, one_ne_zero⟩
  exact ⟨h, c5_cosine_self_one.2 [(1 : ℝ)] h⟩

/-- C10: the division in `cosineSimilarity` is unguarded.  Under the
precondition that both vectors have a nonzero component, the divisor
`|a|·|b|` is nonzero; every score returned by `query` is exactly such an
unguarded quotient over a stored vector; the magnitude of a zero vector is
`0`, so without the precondition the divisor is `0` (the floating-point
`0/0`); and the ranking stage of `query` admits any stored entry — a
single-document store always places its (possibly zero-divisor) scored
entry in the ranked list, no magnitude guard intervening. -/
theorem c10_unguarded_cosine_division :
    (∀ a b : List ℝ, (∃ x ∈ a, x ≠ 0) → (∃ y ∈ b, y ≠ 0) →
      SimpleVectorStore.magnitude a * SimpleVectorStore.magnitude b ≠ 0) ∧
    (∀ (docs : List SimpleVectorStore.StoredDoc) (qe : List ℝ) (topK : Nat)
        (r : VectorResult), r ∈ SimpleVectorStore.query docs qe topK →
      ∃ d ∈ docs, r.score = SimpleVectorStore.dotProduct qe d.embedding /
        (SimpleVectorStore.magnitude qe * SimpleVectorStore.magnitude d.embedding)) ∧
    (∀ n : Nat, SimpleVectorStore.magnitude (List.replicate n 0) = 0) ∧
    (∀ (qe : List ℝ) (d : SimpleVectorStore.StoredDoc) (k : Nat),
      SimpleVectorStore.rankResults (SimpleVectorStore.scoreResults [d] qe) (k + 1) =
        [{ id := d.id, score := SimpleVectorStore.cosineSimilarity qe d.embedding,
           metadata := d.metadata }]) := by
  refine ⟨?_, ?_, ?_, ?_⟩
  · intro a b ha hb
    exact mul_ne_zero
      (ne_of_gt (Real.sqrt_pos.mpr (sum_squares_pos a ha)))
      (ne_of_gt (Real.sqrt_pos.mpr (sum_squares_pos b hb)))
  · intro docs qe topK r hr
    have h1 : r ∈ SimpleVectorStore.rankResults (SimpleVectorStore.scoreResults docs qe) topK :=
      List.mem_of_mem_filter hr
    have h2 : r ∈ (SimpleVectorStore.scoreResults docs qe).mergeSort
        SimpleVectorStore.scoreDesc := List.mem_of_mem_take h1
    have h3 : r ∈ SimpleVectorStore.scoreResults docs qe := List.mem_mergeSort.mp h2
    obtain ⟨d, hd, rfl⟩ := List.mem_map.mp h3
    exact ⟨d, hd, rfl⟩
  · intro n
    simp [SimpleVectorStore.magnitude, List.map_replicate, List.sum_replicate]
  · intro qe d k
    simp [SimpleVectorStore.rankResults, SimpleVectorStore.scoreResults]

/-- C10 witness: at the concrete nonzero vector `[1]` the divisor is
nonzero, and for the one-document store holding `[1]` the query result's
score is the unguarded quotient over that stored vector. -/
theorem c10_witness :
    ((∃ x ∈ [(1 : ℝ)], x ≠ 0) ∧
      SimpleVectorStore.magnitude [(1 : ℝ)] * SimpleVectorStore.magnitude [(1 : ℝ)] ≠ 0) ∧
    ((⟨"d1", SimpleVectorStore.cosineSimilarity [(1 : ℝ)] [(1 : ℝ)], {}⟩ : VectorResult) ∈
      SimpleVectorStore.query [⟨"d1", [(1 : ℝ)], {}⟩] [(1 : ℝ)] 1) ∧
    (∃ d ∈ [(⟨"d1", [(1 : ℝ)], {}⟩ : SimpleVectorStore.StoredDoc)],
      (⟨"d1", SimpleVectorStore.cosineSimilarity [(1 : ℝ)] [(1 : ℝ)], {}⟩ :
          VectorResult).score =
        SimpleVectorStore.dotProduct [(1 : ℝ)] d.embedding /
          (SimpleVectorStore.magnitude [(1 : ℝ)] * SimpleVectorStore.magnitude d.embedding)) := by
  have hx : ∃ x ∈ [(1 : ℝ)], x ≠ 0 := ⟨1, List.mem_singleton.mpr rfl, one_ne_zero⟩
  have h4 := c10_unguarded_cosine_division.2.2.2 [(1 : ℝ)] ⟨"d1", [(1 : ℝ)], {}⟩ 0
  have h4' : SimpleVectorStore.rankResults
      (SimpleVectorStore.scoreResults [⟨"d1", [(1 : ℝ)], {}⟩] [(1 : ℝ)]) 1 =
      [⟨"d1", SimpleVectorStore.cosineSimilarity [(1 : ℝ)] [(1 : ℝ)], {}⟩] := by
    simpa using h4
  have hmem : (⟨"d1", SimpleVectorStore.cosineSimilarity [(1 : ℝ)] [(1 : ℝ)], {}⟩ :
      VectorResult) ∈ SimpleVectorStore.query [⟨"d1", [(1 : ℝ)], {}⟩] [(1 : ℝ)] 1 := by
    simp only [SimpleVectorStore.query, h4']
    refine List.mem_filter.mpr ⟨List.mem_singleton.mpr rfl, ?_⟩
    simp only [cosine_one_one, decide_eq_true_eq]
    norm_num
  exact ⟨⟨hx, c10_unguarded_cosine_division.1 [(1 : ℝ)] [(1 : ℝ)] hx hx⟩, hmem,
    c10_unguarded_cosine_division.2.1 [⟨"d1", [(1 : ℝ)], {}⟩] [(1 : ℝ)] 1 _ hmem⟩

end

end MastraRag
